import Mathlib

/-!
Shallow embedding of the Oracle vector-store Langflow components
(`src/text-embedding/oracle_vector_store.py` and
`src/docling/oracle_vector_store.py`).

The Python code is a sequence of side-effecting calls (SQL over a live
connection, temporary-file management, search-backend calls).  We embed it
as pure Lean functions that thread the observable effects explicitly:

* SQL statements issued by `build_vector_store` are recorded as a trace of
  `SqlStmt` values, in execution order; only statements that the database
  accepted appear in the trace (a failing `cursor.execute` contributes no
  statement, only its error).
* Python exceptions become `Except PyErr`, where `PyErr` keeps the message
  and the `from`-cause chain (`raise X from Y`).
* Database-side transactional semantics — the assumption the spec makes
  explicit ("database-side atomicity is assumed from the rollback") — are
  modelled by `applyStmt`: uncommitted DDL sits in `DBState.pending` until
  a `commit` publishes it to `DBState.catalog`, and `rollback` discards it.
* Filesystem effects of the wallet phase are tracked in `FsState`.
* Environment behaviour the component cannot observe (does the local
  wallet file exist, does zip extraction fail, does a DDL statement fail,
  what rows the table holds) is supplied by oracle fields of `BuildWorld`.
-/

/-- Kind tag for the Python exception classes raised by the components. -/
inductive PyErrKind where
  | valueError
  | fileNotFoundError
  | runtimeError
  | connectionError
deriving DecidableEq, Repr

/-- A Python exception: class and message, either raised bare (`base`) or
chained with `raise ... from e` (`wrap`, where `cause` is `e`). -/
inductive PyErr where
  | base (kind : PyErrKind) (msg : String)
  | wrap (kind : PyErrKind) (msg : String) (cause : PyErr)
deriving DecidableEq, Repr

/-- The message of an exception. -/
def PyErr.msg : PyErr → String
  | .base _ m => m
  | .wrap _ m _ => m

/-- The kind of an exception. -/
def PyErr.kind : PyErr → PyErrKind
  | .base k _ => k
  | .wrap k _ _ => k

/-- All messages along the `from`-cause chain, outermost first. -/
def PyErr.causeChain : PyErr → List String
  | .base _ m => [m]
  | .wrap _ m c => m :: c.causeChain

/-- SQL statements issued by the provisioning section of
`build_vector_store` (lines 242-306 of the text-embedding variant,
275-335 of the docling variant; both issue the same statements).
`createVectorIndex` records the distance literal that appears in the
`WITH DISTANCE` clause of the generated DDL text. -/
inductive SqlStmt where
  | selectTableName (tableName : String)
  | createTable (user table : String) (dim : Nat)
  | alterAddPrimaryKey (user table : String)
  | createVectorIndex (user table distance : String)
  | commit
  | rollback
deriving DecidableEq, Repr

/-- Whether a statement is one of the three DDL statements of the
provisioning sequence (CREATE TABLE / ALTER TABLE / CREATE VECTOR INDEX). -/
def SqlStmt.isDDL : SqlStmt → Bool
  | .createTable _ _ _ => true
  | .alterAddPrimaryKey _ _ => true
  | .createVectorIndex _ _ _ => true
  | _ => false

/-- Code of one character after SQL `UPPER` on ASCII identifiers:
lower-case letters are shifted to upper case, everything else is kept. -/
def upperCode (c : Char) : Nat :=
  if 97 ≤ c.toNat ∧ c.toNat ≤ 122 then c.toNat - 32 else c.toNat

/-- The `UPPER(name)` key of a table name, as a list of character codes. -/
def upperKey (s : String) : List Nat := s.data.map upperCode

/-- The existence lookup
`SELECT table_name FROM user_tables WHERE UPPER(table_name) = UPPER(:table_name)`
followed by `fetchone()`: the first catalog entry whose upper-cased name
matches the upper-cased requested name, in its stored casing. -/
def lookupTable (catalog : List String) (tableName : String) : Option String :=
  catalog.find? (fun t => upperKey t == upperKey tableName)

/-- The three DDL steps of provisioning, in execution order. -/
inductive DdlStep where
  | createTable
  | addPrimaryKey
  | createIndex
deriving DecidableEq, Repr

/-- Database state under the transactional semantics the spec assumes:
`catalog` is the committed list of table names, `pending` the tables
created inside the current (uncommitted) transaction. -/
structure DBState where
  catalog : List String
  pending : List String
deriving DecidableEq, Repr

/-- Effect of one accepted statement on the database state: `CREATE TABLE`
adds to the pending set, `commit` publishes pending tables to the catalog,
`rollback` discards them; the lookup, primary key and index statements do
not change which tables exist. -/
def applyStmt (st : DBState) : SqlStmt → DBState
  | .createTable _ t _ => { st with pending := st.pending ++ [t] }
  | .commit => { catalog := st.catalog ++ st.pending, pending := [] }
  | .rollback => { st with pending := [] }
  | _ => st

/-- Effect of a statement trace, applied left to right. -/
def applyTrace (st : DBState) : List SqlStmt → DBState
  | [] => st
  | s :: rest => applyTrace (applyStmt st s) rest

/-- Result of the provisioning section: the value of `actual_table_name`
(or the propagated exception) together with the trace of accepted SQL
statements. -/
structure ProvisionResult where
  result : Except PyErr String
  trace : List SqlStmt

instance : DecidableEq (Except PyErr String) := fun a b =>
  match a, b with
  | .ok x, .ok y => decidable_of_iff (x = y) (by simp)
  | .error x, .error y => decidable_of_iff (x = y) (by simp)
  | .ok _, .error _ => isFalse (by simp)
  | .error _, .ok _ => isFalse (by simp)

/-- The table-provisioning section of `build_vector_store`
(text-embedding variant lines 242-306; the docling variant is identical
with `embedDim = 1024`).  `catalog` is what `user_tables` holds when the
existence lookup runs; `ddlFails step` is `some m` when the database
rejects that DDL statement with error message `m`.

Faithful to the code: the existence `SELECT` always runs first; if a row
is found, `actual_table_name` is the stored casing and nothing else is
executed.  Otherwise the three DDL statements run in order; the first
failure triggers `conn.rollback()` and a
`RuntimeError("Failed to create table ...") from create_error`, which the
enclosing handler re-wraps as
`RuntimeError("Failed to validate or create table: ...") from e`;
`conn.commit()` runs only after all three statements succeed. -/
def provisionTable (dbUser tableName : String) (embedDim : Nat)
    (catalog : List String) (ddlFails : DdlStep → Option String) :
    ProvisionResult :=
  let sel := SqlStmt.selectTableName tableName
  match lookupTable catalog tableName with
  | some stored => { result := .ok stored, trace := [sel] }
  | none =>
    let innerFail (doneDdl : List SqlStmt) (cause : String) : ProvisionResult :=
      let createError : PyErr := .base .runtimeError cause
      let inner : PyErr := .wrap .runtimeError
        ("Failed to create table: " ++ cause) createError
      let outer : PyErr := .wrap .runtimeError
        ("Failed to validate or create table: " ++ inner.msg) inner
      { result := .error outer, trace := sel :: doneDdl ++ [SqlStmt.rollback] }
    match ddlFails .createTable with
    | some m => innerFail [] m
    | none =>
      let ct := SqlStmt.createTable dbUser tableName embedDim
      match ddlFails .addPrimaryKey with
      | some m => innerFail [ct] m
      | none =>
        let pk := SqlStmt.alterAddPrimaryKey dbUser tableName
        match ddlFails .createIndex with
        | some m => innerFail [ct, pk] m
        | none =>
          let idx := SqlStmt.createVectorIndex dbUser tableName "COSINE"
          { result := .ok tableName
            trace := [sel, ct, pk, idx, SqlStmt.commit] }

/-- Storage mode of the host platform settings (`settings.storage_type`):
the wallet file is either a local path or a reference into S3. -/
inductive StorageType where
  | localStore
  | s3Store
deriving DecidableEq, Repr

/-- Configuration fields of the component that the modelled code paths
read (the remaining inputs only parameterize the search stage, modelled
separately by `SearchConfig`). -/
structure BuildConfig where
  dbUser : String
  tableName : String
  embeddingDimension : Nat
  distanceStrategy : String
  storageType : StorageType
  walletFile : String

/-- Environment behaviour the component cannot control, supplied as
oracles: filesystem and network answers, and the database catalog. -/
structure BuildWorld where
  localFileExists : Bool
  s3ParseOk : Bool
  extractError : Option String
  connectError : Option String
  catalog : List String
  ddlFails : DdlStep → Option String

/-- Post-invocation state of the two temporary filesystem artefacts the
wallet phase can create: the `oracle_wallet_` extraction directory from
`tempfile.mkdtemp` and, in S3 mode, the downloaded wallet file from
`tempfile.NamedTemporaryFile(delete=False)`. -/
structure FsState where
  tempDirCreated : Bool := false
  tempDirExists : Bool := false
  downloadCreated : Bool := false
  downloadExists : Bool := false
deriving DecidableEq, Repr

/-- The `_get_wallet_file_path` helper: `ok dl` means a local wallet path
was produced, with `dl = true` exactly when a temporary download was
created (S3 mode).  Mirrors the code: missing input raises `ValueError`,
a missing local file raises `FileNotFoundError`, an unparseable S3
reference raises `ValueError`; the S3 fetch then writes a temp file. -/
def getWalletFilePath (cfg : BuildConfig) (w : BuildWorld) :
    Except PyErr Bool :=
  if cfg.walletFile = "" then
    .error (.base .valueError "Wallet file is required")
  else
    match cfg.storageType with
    | .localStore =>
        if w.localFileExists then .ok false
        else .error (.base .fileNotFoundError
          ("Wallet file not found: " ++ cfg.walletFile))
    | .s3Store =>
        if w.s3ParseOk then .ok true
        else .error (.base .valueError
          ("Invalid S3 path format: " ++ cfg.walletFile))

/-- Outcome of one `build_vector_store` invocation, cut off after the
provisioning section (the later stages — embedding validation, `OracleVS`
construction, ingestion — touch neither the SQL trace modelled here nor
the wallet temp files): the value of `actual_table_name` or the raised
exception, the accepted SQL statements, and the temp-file state. -/
structure BuildResult where
  result : Except PyErr String
  sqlTrace : List SqlStmt
  fs : FsState

/-- The wallet/connect/provisioning pipeline of `build_vector_store`
(text-embedding variant lines 172-306; the docling variant is the same
with `embeddingDimension = 1024`).  Faithful control flow:

* a failure inside `_get_wallet_file_path` lands in the extraction
  `except` block before any temp artefact is tracked, is re-wrapped as
  `RuntimeError("Failed to extract wallet file: ...") from e`, and the
  `finally` block has nothing to delete;
* after `mkdtemp`, an extraction failure removes the directory and the
  tracked download, then re-raises with the same wrapper;
* on extraction success the `finally` block deletes the tracked download;
* a connection failure removes the directory and raises `ConnectionError`;
* the provisioning section then runs as `provisionTable`; no later code
  removes the extraction directory. -/
def buildVectorStoreModel (cfg : BuildConfig) (w : BuildWorld) :
    BuildResult :=
  match getWalletFilePath cfg w with
  | .error e =>
      { result := .error (.wrap .runtimeError
          ("Failed to extract wallet file: " ++ e.msg) e)
        sqlTrace := []
        fs := {} }
  | .ok downloaded =>
      let fs0 : FsState :=
        { tempDirCreated := true, tempDirExists := true,
          downloadCreated := downloaded, downloadExists := downloaded }
      match w.extractError with
      | some m =>
          { result := .error (.wrap .runtimeError
              ("Failed to extract wallet file: " ++ m)
              (.base .runtimeError m))
            sqlTrace := []
            fs := { fs0 with tempDirExists := false, downloadExists := false } }
      | none =>
          let fs1 := { fs0 with downloadExists := false }
          match w.connectError with
          | some m =>
              { result := .error (.wrap .connectionError
                  ("Failed to connect to Oracle Database: " ++ m)
                  (.base .runtimeError m))
                sqlTrace := []
                fs := { fs1 with tempDirExists := false } }
          | none =>
              let p := provisionTable cfg.dbUser cfg.tableName
                cfg.embeddingDimension w.catalog w.ddlFails
              { result := p.result, sqlTrace := p.trace, fs := fs1 }

/-- An in-memory Langflow `Data` record as the docling component uses it:
an optional `id` attribute, the text, and the metadata mapping.  Rows read
back by `_oracle_table_to_data` carry `id = some _`; `del value.id` is
`dropId`; pydantic equality is structural equality of the remaining
attributes. -/
structure LfData where
  id : Option String
  text : String
  meta : List (String × String)
deriving DecidableEq, Repr

/-- The `del value.id` step applied to a fetched row before comparison. -/
def LfData.dropId (d : LfData) : LfData := { d with id := none }

/-- The candidate list that `_add_documents_to_vector_store` (docling
variant, lines 362-403) passes to `vector_store.add_documents`.
`fetchedRows` is the content of the table in the order the row-fetch
query returns it; the `ROWNUM <= :limit` clause of
`_oracle_table_to_data` keeps the first `limit` of them.  With
`allow_duplicates` true the stored list is left empty and nothing is
compared; otherwise each stored row loses its `id` and an incoming record
is kept only when it equals none of the stripped rows.  An empty ingest
list short-circuits to no candidates (the method returns early). -/
def addDocumentsCandidates (allowDuplicates : Bool) (limit : Option Nat)
    (fetchedRows : List LfData) (ingest : List LfData) : List LfData :=
  if ingest.isEmpty then []
  else
    let storedData :=
      if allowDuplicates then []
      else match limit with
        | some l => fetchedRows.take l
        | none => fetchedRows
    let storedWithoutId := storedData.map LfData.dropId
    ingest.filter (fun d => !(storedWithoutId.contains d))

/-- Number of incoming records that equal some existing row by
(text, metadata) equality, ignoring the stored row's ID — the K of the
spec's dedup property. -/
def overlapCount (rows ingest : List LfData) : Nat :=
  (ingest.filter (fun d =>
    rows.any (fun r => d.text = r.text && d.meta = r.meta))).length

/-- One retrieval call as `search_documents` (text-embedding variant,
lines 377-429) hands it to the LangChain store; `fetchK = none` means the
`fetch_k` keyword was not passed. -/
inductive SearchCall where
  | similarity (query : String) (k : Int) (fetchK : Option Int)
  | mmr (query : String) (k : Int) (lambdaMult : Rat) (fetchK : Option Int)
  | scoreThreshold (query : String) (k : Int) (threshold : Rat)
      (fetchK : Option Int)
deriving DecidableEq, Repr

/-- The retrieval-stage inputs that `search_documents` reads.
`searchQuery = none` models a missing (`None`) query. -/
structure SearchConfig where
  searchQuery : Option String
  searchType : String
  numberOfResults : Option Int
  fetchK : Int
  mmrLambda : Rat
  scoreThreshold : Rat

/-- Python `self.number_of_results or 5`: `None` and `0` are falsy. -/
def pyOrFive : Option Int → Int
  | none => 5
  | some n => if n = 0 then 5 else n

/-- ASCII whitespace, the characters Python `str.strip()` removes from
the queries this component sees. -/
def isSpaceChar (c : Char) : Bool :=
  c = ' ' || c = '\t' || c = '\n' || c = '\r'

/-- Python `str.strip()`: drop whitespace from both ends. -/
def pyStrip (s : String) : String :=
  String.mk (((s.data.dropWhile isSpaceChar).reverse.dropWhile
    isSpaceChar).reverse)

/-- Observable outcome of the retrieval stage: the returned data, the
backend calls that were issued, and the error status string set when the
`except` branch ran. -/
structure SearchOutcome where
  results : List LfData
  calls : List SearchCall
  failureStatus : Option String
deriving Repr

/-- The retrieval stage of `search_documents`, given the already-built
store as a backend oracle mapping each issued call to its documents or
its raised error message.  Faithful to the code: the query must be truthy
and strip to a nonempty string, else the method returns `[]` with no
backend call; `k = max(1, number_of_results or 5)`; `fetch_k` is passed
only when truthy (nonzero); an unrecognized `search_type` falls into the
final `else` — a plain `similarity_search(query, k)` without `fetch_k`;
any backend exception is caught, sets the failure status, and yields `[]`. -/
def searchDocuments (cfg : SearchConfig)
    (backend : SearchCall → Except String (List LfData)) : SearchOutcome :=
  match cfg.searchQuery with
  | none => { results := [], calls := [], failureStatus := none }
  | some q0 =>
    if pyStrip q0 = "" then { results := [], calls := [], failureStatus := none }
    else
      let query := pyStrip q0
      let k : Int := max 1 (pyOrFive cfg.numberOfResults)
      let fk : Option Int := if cfg.fetchK ≠ 0 then some cfg.fetchK else none
      let call : SearchCall :=
        if cfg.searchType = "similarity" then
          .similarity query k fk
        else if cfg.searchType = "mmr" then
          .mmr query k cfg.mmrLambda fk
        else if cfg.searchType = "similarity_score_threshold" then
          .scoreThreshold query k cfg.scoreThreshold fk
        else
          .similarity query k none
      match backend call with
      | .ok docs =>
          { results := docs, calls := [call], failureStatus := none }
      | .error m =>
          { results := [], calls := [call],
            failureStatus := some ("Search failed: " ++ m) }

/-- Helper: length of the negated filter, the complement-counting fact
behind the dedup claim. -/
lemma length_filter_not_eq_sub (p : LfData → Bool) (l : List LfData) :
    (l.filter (fun a => !(p a))).length = l.length - (l.filter p).length := by
  induction l with
  | nil => simp
  | cons a l ih =>
      have hle := List.length_filter_le p l
      by_cases h : p a <;> simp [h, ih]
      omega

/-- C1: when the existence lookup finds no row, provisioning executes
exactly the three DDL statements in order — CREATE TABLE with the
ID/TEXT/METADATA/EMBEDDING(dimension)/CREATED_AT columns, ALTER TABLE
adding the primary key on ID, CREATE VECTOR INDEX — commits only after
all three succeed, and returns the configured table name. -/
theorem provision_absent_three_ddl_then_commit
    (u t : String) (dim : Nat) (catalog : List String)
    (f : DdlStep → Option String)
    (habs : lookupTable catalog t = none) :
    ((∀ s, f s = none) →
      (provisionTable u t dim catalog f).trace
        = [SqlStmt.selectTableName t, SqlStmt.createTable u t dim,
           SqlStmt.alterAddPrimaryKey u t,
           SqlStmt.createVectorIndex u t "COSINE", SqlStmt.commit]
      ∧ (provisionTable u t dim catalog f).result = Except.ok t)
    ∧ (SqlStmt.commit ∈ (provisionTable u t dim catalog f).trace →
        ∀ s, f s = none) := by
  constructor
  · intro hok
    simp [provisionTable, habs, hok]
  · intro hc
    rcases h1 : f .createTable with _ | m
    · rcases h2 : f .addPrimaryKey with _ | m
      · rcases h3 : f .createIndex with _ | m
        · intro s; cases s <;> assumption
        · exfalso; simp [provisionTable, habs, h1, h2, h3] at hc
      · exfalso; simp [provisionTable, habs, h1, h2] at hc
    · exfalso; simp [provisionTable, habs, h1] at hc

/-- Witness for C1: concrete empty catalog, all DDL accepted. -/
theorem provision_absent_three_ddl_then_commit_witness :
    lookupTable [] "PDFCOLLECTION" = none
    ∧ (provisionTable "ADMIN" "PDFCOLLECTION" 1024 [] (fun _ => none)).trace
        = [SqlStmt.selectTableName "PDFCOLLECTION",
           SqlStmt.createTable "ADMIN" "PDFCOLLECTION" 1024,
           SqlStmt.alterAddPrimaryKey "ADMIN" "PDFCOLLECTION",
           SqlStmt.createVectorIndex "ADMIN" "PDFCOLLECTION" "COSINE",
           SqlStmt.commit]
    ∧ (provisionTable "ADMIN" "PDFCOLLECTION" 1024 [] (fun _ => none)).result
        = Except.ok "PDFCOLLECTION" :=
  ⟨rfl, (provision_absent_three_ddl_then_commit "ADMIN" "PDFCOLLECTION" 1024 []
      (fun _ => none) rfl).1 (fun _ => rfl)⟩

/-- C3: provisioning is idempotent.  When the case-insensitive lookup
finds the table, the invocation performs only the one SELECT, no DDL, and
returns the catalog's stored casing; and after a successful provisioning
run on an absent table, a second run over the resulting committed catalog
performs only the existence lookup — so the CREATE/ALTER/CREATE INDEX
sequence runs exactly once across the two runs. -/
theorem provision_idempotent
    (u t : String) (dim : Nat) (catalog : List String)
    (f : DdlStep → Option String) :
    (∀ stored, lookupTable catalog t = some stored →
        (provisionTable u t dim catalog f).trace = [SqlStmt.selectTableName t]
        ∧ (provisionTable u t dim catalog f).result = Except.ok stored)
    ∧ (lookupTable catalog t = none → (∀ s, f s = none) →
        (provisionTable u t dim
          (applyTrace ⟨catalog, []⟩ (provisionTable u t dim catalog f).trace).catalog
          f).trace = [SqlStmt.selectTableName t]
        ∧ (provisionTable u t dim
            (applyTrace ⟨catalog, []⟩ (provisionTable u t dim catalog f).trace).catalog
            f).result = Except.ok t) := by
  constructor
  · intro stored hfound
    simp [provisionTable, hfound]
  · intro habs hok
    have htrace : (provisionTable u t dim catalog f).trace
        = [SqlStmt.selectTableName t, SqlStmt.createTable u t dim,
           SqlStmt.alterAddPrimaryKey u t,
           SqlStmt.createVectorIndex u t "COSINE", SqlStmt.commit] := by
      simp [provisionTable, habs, hok]
    rw [htrace]
    have hstate : applyTrace ⟨catalog, []⟩
        [SqlStmt.selectTableName t, SqlStmt.createTable u t dim,
         SqlStmt.alterAddPrimaryKey u t,
         SqlStmt.createVectorIndex u t "COSINE", SqlStmt.commit]
        = ⟨catalog ++ [t], []⟩ := by
      simp [applyTrace, applyStmt]
    rw [hstate]
    have hfound : lookupTable (catalog ++ [t]) t = some t := by
      unfold lookupTable at habs ⊢
      rw [List.find?_append, habs]
      simp
    simp [provisionTable, hfound]

/-- Witness for C3: a catalog holding PDFCOLLECTION answers the
lower-cased request with the stored casing and issues no DDL; and on an
empty catalog the second of two runs issues only the SELECT. -/
theorem provision_idempotent_witness :
    (lookupTable ["PDFCOLLECTION"] "pdfcollection" = some "PDFCOLLECTION"
      ∧ ((provisionTable "ADMIN" "pdfcollection" 1024 ["PDFCOLLECTION"]
            (fun _ => none)).trace = [SqlStmt.selectTableName "pdfcollection"]
        ∧ (provisionTable "ADMIN" "pdfcollection" 1024 ["PDFCOLLECTION"]
            (fun _ => none)).result = Except.ok "PDFCOLLECTION"))
    ∧ ((provisionTable "ADMIN" "T" 1024
          (applyTrace ⟨[], []⟩ (provisionTable "ADMIN" "T" 1024 []
            (fun _ => none)).trace).catalog
          (fun _ => none)).trace = [SqlStmt.selectTableName "T"]
      ∧ (provisionTable "ADMIN" "T" 1024
          (applyTrace ⟨[], []⟩ (provisionTable "ADMIN" "T" 1024 []
            (fun _ => none)).trace).catalog
          (fun _ => none)).result = Except.ok "T") :=
  ⟨⟨by decide,
    (provision_idempotent "ADMIN" "pdfcollection" 1024 ["PDFCOLLECTION"]
      (fun _ => none)).1 "PDFCOLLECTION" (by decide)⟩,
   (provision_idempotent "ADMIN" "T" 1024 [] (fun _ => none)).2
      (by decide) (fun _ => rfl)⟩

/-- C4: if any of the three provisioning DDL statements fails, the
rollback is the last statement issued before the error propagates, no
commit happens, the raised error carries the original cause in its
`from`-chain, and — under the transactional semantics the rollback is
assumed to provide — the committed catalog is unchanged, so no
partially-created table remains. -/
theorem provision_failure_rolls_back
    (u t : String) (dim : Nat) (catalog : List String)
    (f : DdlStep → Option String)
    (habs : lookupTable catalog t = none)
    (s0 : DdlStep) (m0 : String) (hfail : f s0 = some m0) :
    ∃ e pre,
      (provisionTable u t dim catalog f).result = Except.error e
      ∧ (provisionTable u t dim catalog f).trace = pre ++ [SqlStmt.rollback]
      ∧ SqlStmt.commit ∉ (provisionTable u t dim catalog f).trace
      ∧ e.kind = PyErrKind.runtimeError
      ∧ (∃ s m, f s = some m ∧ m ∈ e.causeChain)
      ∧ (applyTrace ⟨catalog, []⟩ (provisionTable u t dim catalog f).trace).catalog
          = catalog := by
  rcases h1 : f .createTable with _ | m
  · rcases h2 : f .addPrimaryKey with _ | m
    · rcases h3 : f .createIndex with _ | m
      · exfalso
        cases s0
        · rw [h1] at hfail; exact Option.noConfusion hfail
        · rw [h2] at hfail; exact Option.noConfusion hfail
        · rw [h3] at hfail; exact Option.noConfusion hfail
      · refine ⟨PyErr.wrap .runtimeError
            ("Failed to validate or create table: "
              ++ ("Failed to create table: " ++ m))
            (PyErr.wrap .runtimeError ("Failed to create table: " ++ m)
              (PyErr.base .runtimeError m)),
          [SqlStmt.selectTableName t, SqlStmt.createTable u t dim,
            SqlStmt.alterAddPrimaryKey u t],
          ?_, ?_, ?_, rfl, ⟨.createIndex, m, h3, ?_⟩, ?_⟩
        · simp [provisionTable, habs, h1, h2, h3, PyErr.msg]
        · simp [provisionTable, habs, h1, h2, h3]
        · simp [provisionTable, habs, h1, h2, h3]
        · simp [PyErr.causeChain]
        · simp [provisionTable, habs, h1, h2, h3, applyTrace, applyStmt]
    · refine ⟨PyErr.wrap .runtimeError
          ("Failed to validate or create table: "
            ++ ("Failed to create table: " ++ m))
          (PyErr.wrap .runtimeError ("Failed to create table: " ++ m)
            (PyErr.base .runtimeError m)),
        [SqlStmt.selectTableName t, SqlStmt.createTable u t dim],
        ?_, ?_, ?_, rfl, ⟨.addPrimaryKey, m, h2, ?_⟩, ?_⟩
      · simp [provisionTable, habs, h1, h2, PyErr.msg]
      · simp [provisionTable, habs, h1, h2]
      · simp [provisionTable, habs, h1, h2]
      · simp [PyErr.causeChain]
      · simp [provisionTable, habs, h1, h2, applyTrace, applyStmt]
  · refine ⟨PyErr.wrap .runtimeError
        ("Failed to validate or create table: "
          ++ ("Failed to create table: " ++ m))
        (PyErr.wrap .runtimeError ("Failed to create table: " ++ m)
          (PyErr.base .runtimeError m)),
      [SqlStmt.selectTableName t],
      ?_, ?_, ?_, rfl, ⟨.createTable, m, h1, ?_⟩, ?_⟩
    · simp [provisionTable, habs, h1, PyErr.msg]
    · simp [provisionTable, habs, h1]
    · simp [provisionTable, habs, h1]
    · simp [PyErr.causeChain]
    · simp [provisionTable, habs, h1, applyTrace, applyStmt]

/-- Witness for C4: empty catalog, CREATE VECTOR INDEX rejected. -/
theorem provision_failure_rolls_back_witness :
    lookupTable [] "T" = none
    ∧ (fun s => if s = DdlStep.createIndex then some "ORA-01408" else none)
        DdlStep.createIndex = some "ORA-01408"
    ∧ ∃ e pre,
      (provisionTable "ADMIN" "T" 1024 []
        (fun s => if s = DdlStep.createIndex then some "ORA-01408" else none)).result
          = Except.error e
      ∧ (provisionTable "ADMIN" "T" 1024 []
          (fun s => if s = DdlStep.createIndex then some "ORA-01408" else none)).trace
          = pre ++ [SqlStmt.rollback]
      ∧ SqlStmt.commit ∉ (provisionTable "ADMIN" "T" 1024 []
          (fun s => if s = DdlStep.createIndex then some "ORA-01408" else none)).trace
      ∧ e.kind = PyErrKind.runtimeError
      ∧ (∃ s m, (fun s => if s = DdlStep.createIndex then some "ORA-01408" else none) s
            = some m ∧ m ∈ e.causeChain)
      ∧ (applyTrace ⟨[], []⟩ (provisionTable "ADMIN" "T" 1024 []
          (fun s => if s = DdlStep.createIndex then some "ORA-01408" else none)).trace).catalog
          = [] :=
  ⟨rfl, rfl,
    provision_failure_rolls_back "ADMIN" "T" 1024 []
      (fun s => if s = DdlStep.createIndex then some "ORA-01408" else none)
      rfl DdlStep.createIndex "ORA-01408" rfl⟩

/-- C2: the CREATE VECTOR INDEX statement issued by any build invocation
always carries WITH DISTANCE COSINE, and the SQL trace of the invocation
does not depend on the configured distance strategy at all — so
EUCLIDEAN_DISTANCE and DOT_PRODUCT never reach the index DDL. -/
theorem vector_index_always_cosine (cfg : BuildConfig) (w : BuildWorld) :
    ((buildVectorStoreModel cfg w).sqlTrace.all (fun s =>
        match s with
        | SqlStmt.createVectorIndex _ _ d => d == "COSINE"
        | _ => true) = true)
    ∧ ∀ ds ds2,
      (buildVectorStoreModel { cfg with distanceStrategy := ds } w).sqlTrace
        = (buildVectorStoreModel { cfg with distanceStrategy := ds2 } w).sqlTrace := by
  constructor
  · have hp : ∀ dbu tn dim cat f, ((provisionTable dbu tn dim cat f).trace.all (fun s =>
        match s with
        | SqlStmt.createVectorIndex _ _ d => d == "COSINE"
        | _ => true) = true) := by
      intro dbu tn dim cat f
      unfold provisionTable
      rcases lookupTable cat tn with _ | stored
      · rcases f .createTable with _ | m
        · rcases f .addPrimaryKey with _ | m
          · rcases f .createIndex with _ | m <;> simp
          · simp
        · simp
      · simp
    unfold buildVectorStoreModel
    rcases getWalletFilePath cfg w with e | dl
    · simp
    · rcases w.extractError with _ | m
      · rcases w.connectError with _ | m
        · exact hp cfg.dbUser cfg.tableName cfg.embeddingDimension
            w.catalog w.ddlFails
        · simp
      · simp
  · intro ds ds2
    rfl

/-- Witness for C2: a successful local-mode build on an empty catalog
puts a CREATE VECTOR INDEX with distance COSINE into the trace. -/
theorem vector_index_always_cosine_witness :
    ((buildVectorStoreModel
        ⟨"ADMIN", "T", 1024, "EUCLIDEAN_DISTANCE", .localStore, "w.zip"⟩
        ⟨true, false, none, none, [], fun _ => none⟩).sqlTrace.all (fun s =>
        match s with
        | SqlStmt.createVectorIndex _ _ d => d == "COSINE"
        | _ => true) = true)
    ∧ SqlStmt.createVectorIndex "ADMIN" "T" "COSINE"
        ∈ (buildVectorStoreModel
            ⟨"ADMIN", "T", 1024, "EUCLIDEAN_DISTANCE", .localStore, "w.zip"⟩
            ⟨true, false, none, none, [], fun _ => none⟩).sqlTrace :=
  ⟨(vector_index_always_cosine
      ⟨"ADMIN", "T", 1024, "EUCLIDEAN_DISTANCE", .localStore, "w.zip"⟩
      ⟨true, false, none, none, [], fun _ => none⟩).1,
   by decide⟩

/-- C8: when wallet resolution succeeded but extraction fails, the
invocation raises with the extraction wrapper message, the temporary
extraction directory was created but no longer exists, any temporary
downloaded wallet file no longer exists, and no SQL was issued. -/
theorem extract_failure_cleans_temp_files
    (cfg : BuildConfig) (w : BuildWorld) (dl : Bool) (m : String)
    (hres : getWalletFilePath cfg w = Except.ok dl)
    (hx : w.extractError = some m) :
    ∃ e, (buildVectorStoreModel cfg w).result = Except.error e
      ∧ e.msg = "Failed to extract wallet file: " ++ m
      ∧ (buildVectorStoreModel cfg w).fs.tempDirCreated = true
      ∧ (buildVectorStoreModel cfg w).fs.tempDirExists = false
      ∧ (buildVectorStoreModel cfg w).fs.downloadCreated = dl
      ∧ (buildVectorStoreModel cfg w).fs.downloadExists = false
      ∧ (buildVectorStoreModel cfg w).sqlTrace = [] := by
  refine ⟨PyErr.wrap .runtimeError ("Failed to extract wallet file: " ++ m)
      (PyErr.base .runtimeError m), ?_⟩
  unfold buildVectorStoreModel
  rw [hres, hx]
  exact ⟨rfl, rfl, rfl, rfl, rfl, rfl, rfl⟩

/-- Witness for C8: S3 mode with a parseable reference and a corrupt
archive — the downloaded wallet file and the extraction directory are
both gone after the raise. -/
theorem extract_failure_cleans_temp_files_witness :
    getWalletFilePath ⟨"ADMIN", "T", 1024, "COSINE", .s3Store, "flow/w.zip"⟩
        ⟨false, true, some "File is not a zip file", none, [], fun _ => none⟩
        = Except.ok true
    ∧ ∃ e, (buildVectorStoreModel
        ⟨"ADMIN", "T", 1024, "COSINE", .s3Store, "flow/w.zip"⟩
        ⟨false, true, some "File is not a zip file", none, [], fun _ => none⟩).result
          = Except.error e
      ∧ e.msg = "Failed to extract wallet file: " ++ "File is not a zip file"
      ∧ (buildVectorStoreModel
          ⟨"ADMIN", "T", 1024, "COSINE", .s3Store, "flow/w.zip"⟩
          ⟨false, true, some "File is not a zip file", none, [], fun _ => none⟩).fs.tempDirCreated
          = true
      ∧ (buildVectorStoreModel
          ⟨"ADMIN", "T", 1024, "COSINE", .s3Store, "flow/w.zip"⟩
          ⟨false, true, some "File is not a zip file", none, [], fun _ => none⟩).fs.tempDirExists
          = false
      ∧ (buildVectorStoreModel
          ⟨"ADMIN", "T", 1024, "COSINE", .s3Store, "flow/w.zip"⟩
          ⟨false, true, some "File is not a zip file", none, [], fun _ => none⟩).fs.downloadCreated
          = true
      ∧ (buildVectorStoreModel
          ⟨"ADMIN", "T", 1024, "COSINE", .s3Store, "flow/w.zip"⟩
          ⟨false, true, some "File is not a zip file", none, [], fun _ => none⟩).fs.downloadExists
          = false
      ∧ (buildVectorStoreModel
          ⟨"ADMIN", "T", 1024, "COSINE", .s3Store, "flow/w.zip"⟩
          ⟨false, true, some "File is not a zip file", none, [], fun _ => none⟩).sqlTrace
          = [] :=
  ⟨rfl, extract_failure_cleans_temp_files
    ⟨"ADMIN", "T", 1024, "COSINE", .s3Store, "flow/w.zip"⟩
    ⟨false, true, some "File is not a zip file", none, [], fun _ => none⟩
    true "File is not a zip file" rfl rfl⟩

/-- Counterexample to C9 as stated: a successful build invocation (local
wallet, extraction and connection succeed, table already present) returns
normally while the wallet extraction directory still exists — the
directory outlives the invocation. -/
theorem wallet_dir_outlives_successful_build :
    (buildVectorStoreModel ⟨"ADMIN", "T", 1024, "COSINE", .localStore, "w.zip"⟩
        ⟨true, false, none, none, ["T"], fun _ => none⟩).result = Except.ok "T"
    ∧ (buildVectorStoreModel ⟨"ADMIN", "T", 1024, "COSINE", .localStore, "w.zip"⟩
        ⟨true, false, none, none, ["T"], fun _ => none⟩).fs.tempDirCreated = true
    ∧ (buildVectorStoreModel ⟨"ADMIN", "T", 1024, "COSINE", .localStore, "w.zip"⟩
        ⟨true, false, none, none, ["T"], fun _ => none⟩).fs.tempDirExists = true :=
  ⟨rfl, rfl, rfl⟩

/-- C9 amended: any temporary downloaded wallet file is ephemeral — it
never survives the invocation — but the extraction directory survives
exactly when the invocation got past the connection step: it is removed
only on extraction or connection failure, and outlives the invocation on
success and on provisioning failure. -/
theorem wallet_temp_file_lifetime (cfg : BuildConfig) (w : BuildWorld) :
    (buildVectorStoreModel cfg w).fs.downloadExists = false
    ∧ ((buildVectorStoreModel cfg w).fs.tempDirExists = true ↔
        (∃ dl, getWalletFilePath cfg w = Except.ok dl)
        ∧ w.extractError = none ∧ w.connectError = none) := by
  unfold buildVectorStoreModel
  rcases hres : getWalletFilePath cfg w with e | dl
  · simp [hres, FsState.downloadExists, FsState.tempDirExists]
  · rcases hx : w.extractError with _ | m
    · rcases hc : w.connectError with _ | m
      · simp [hres]
      · simp [hres]
    · simp [hres, hx]

/-- Helper: for an incoming record with no ID, pydantic equality against
a stored row stripped of its ID is exactly (text, metadata) equality. -/
lemma beq_dropId (d r : LfData) (hid : d.id = none) :
    (d == LfData.dropId r)
      = (decide (d.text = r.text) && decide (d.meta = r.meta)) := by
  rcases d with ⟨di, dt, dm⟩
  simp only at hid
  subst hid
  rcases r with ⟨ri, rt, rm⟩
  rw [Bool.eq_iff_iff]
  simp [LfData.dropId, LfData.mk.injEq]

/-- Helper: membership in the ID-stripped stored list coincides with the
(text, metadata) overlap predicate for ID-less incoming records. -/
lemma contains_dropId (rows : List LfData) (d : LfData) (hid : d.id = none) :
    ((rows.map LfData.dropId).contains d)
      = rows.any (fun r => decide (d.text = r.text) && decide (d.meta = r.meta)) := by
  rw [List.contains_eq_any_beq, List.any_map]
  have hfun : ((fun x => d == x) ∘ LfData.dropId)
      = (fun r => decide (d.text = r.text) && decide (d.meta = r.meta)) :=
    funext (fun r => beq_dropId d r hid)
  rw [hfun]

/-- Counterexample to C5 as stated: with dedup enabled but a configured
row-scan limit of 1, a catalog of two rows and one incoming record that
duplicates the second row, the claim predicts 1 − 1 = 0 inserts, yet the
code passes 1 document to the insert call (the duplicate row was outside
the fetched window). -/
theorem dedup_insert_count_counterexample :
    overlapCount [⟨some "1", "a", []⟩, ⟨some "2", "b", []⟩] [⟨none, "b", []⟩] = 1
    ∧ (addDocumentsCandidates false (some 1)
        [⟨some "1", "a", []⟩, ⟨some "2", "b", []⟩] [⟨none, "b", []⟩]).length = 1
    ∧ (addDocumentsCandidates false (some 1)
        [⟨some "1", "a", []⟩, ⟨some "2", "b", []⟩] [⟨none, "b", []⟩]).length
      ≠ ([(⟨none, "b", []⟩ : LfData)]).length
        - overlapCount [⟨some "1", "a", []⟩, ⟨some "2", "b", []⟩]
            [⟨none, "b", []⟩] := by
  refine ⟨rfl, rfl, ?_⟩
  decide

/-- C5 amended: with dedup enabled, incoming records carrying no ID, and
the row-scan limit absent or at least the catalog size, exactly M − K
documents are passed to the insert call, where K counts incoming records
that equal some fetched row by (text, metadata) equality ignoring the
stored row's ID; a smaller limit restricts the comparison to the fetched
window. -/
theorem dedup_insert_count_amended
    (rows ingest : List LfData) (limit : Option Nat)
    (hids : ∀ d ∈ ingest, d.id = none)
    (hlim : limit = none ∨ ∃ l, limit = some l ∧ rows.length ≤ l) :
    (addDocumentsCandidates false limit rows ingest).length
      = ingest.length - overlapCount rows ingest := by
  have hplain : addDocumentsCandidates false limit rows ingest
      = ingest.filter (fun d => !((rows.map LfData.dropId).contains d)) := by
    rcases hlim with h | ⟨l, hl, hle⟩ <;> subst_vars
    · cases ingest with
      | nil => rfl
      | cons d0 rest => rfl
    · cases ingest with
      | nil => rfl
      | cons d0 rest =>
          show (d0 :: rest).filter
              (fun d => !(((rows.take l).map LfData.dropId).contains d))
            = (d0 :: rest).filter (fun d => !((rows.map LfData.dropId).contains d))
          rw [List.take_of_length_le hle]
  rw [hplain,
    List.filter_congr (fun d hd => by rw [contains_dropId rows d (hids d hd)])]
  exact length_filter_not_eq_sub _ ingest

/-- Witness for C5 amended: catalog of two rows, two incoming ID-less
records with one (text, metadata) overlap, no limit — one document passes. -/
theorem dedup_insert_count_amended_witness :
    (∀ d ∈ [(⟨none, "b", []⟩ : LfData), ⟨none, "c", []⟩], d.id = none)
    ∧ (addDocumentsCandidates false none
        [⟨some "1", "a", []⟩, ⟨some "2", "b", []⟩]
        [⟨none, "b", []⟩, ⟨none, "c", []⟩]).length
      = ([(⟨none, "b", []⟩ : LfData), ⟨none, "c", []⟩]).length
        - overlapCount [⟨some "1", "a", []⟩, ⟨some "2", "b", []⟩]
            [⟨none, "b", []⟩, ⟨none, "c", []⟩] :=
  ⟨by decide,
   dedup_insert_count_amended
     [⟨some "1", "a", []⟩, ⟨some "2", "b", []⟩]
     [⟨none, "b", []⟩, ⟨none, "c", []⟩] none
     (by decide) (Or.inl rfl)⟩

/-- C6: a query that strips to the empty string (empty or
whitespace-only) makes the retrieval stage return an empty result with no
backend search call at all. -/
theorem blank_query_returns_empty_without_backend
    (cfg : SearchConfig) (backend : SearchCall → Except String (List LfData))
    (q : String) (hq : cfg.searchQuery = some q) (hws : pyStrip q = "") :
    searchDocuments cfg backend
      = { results := [], calls := [], failureStatus := none } := by
  unfold searchDocuments
  rw [hq]
  simp [hws]

/-- Witness for C6: a whitespace-only query against a backend that would
answer — no call happens and the result is empty. -/
theorem blank_query_returns_empty_without_backend_witness :
    pyStrip "   " = ""
    ∧ searchDocuments ⟨some "   ", "similarity", some 5, 20, 1/2, 7/20⟩
        (fun _ => Except.ok [⟨none, "hit", []⟩])
      = { results := [], calls := [], failureStatus := none } :=
  ⟨rfl, blank_query_returns_empty_without_backend
    ⟨some "   ", "similarity", some 5, 20, 1/2, 7/20⟩
    (fun _ => Except.ok [⟨none, "hit", []⟩]) "   " rfl rfl⟩

/-- C7: for a non-blank query, if the backend raises, the exception is
caught: the result is empty, exactly one backend call was made, and the
status is set to the logged failure message — nothing propagates. -/
theorem search_backend_error_yields_empty
    (cfg : SearchConfig) (backend : SearchCall → Except String (List LfData))
    (q m : String) (hq : cfg.searchQuery = some q) (hne : pyStrip q ≠ "")
    (hb : ∀ c, backend c = Except.error m) :
    (searchDocuments cfg backend).results = []
    ∧ (searchDocuments cfg backend).calls.length = 1
    ∧ (searchDocuments cfg backend).failureStatus
        = some ("Search failed: " ++ m) := by
  unfold searchDocuments
  rw [hq]
  simp [hne, hb]

/-- Witness for C7: a concrete query and an always-raising backend. -/
theorem search_backend_error_yields_empty_witness :
    pyStrip "q" ≠ ""
    ∧ (searchDocuments ⟨some "q", "mmr", some 3, 20, 1/2, 7/20⟩
        (fun _ => Except.error "ORA-00942")).results = []
    ∧ (searchDocuments ⟨some "q", "mmr", some 3, 20, 1/2, 7/20⟩
        (fun _ => Except.error "ORA-00942")).calls.length = 1
    ∧ (searchDocuments ⟨some "q", "mmr", some 3, 20, 1/2, 7/20⟩
        (fun _ => Except.error "ORA-00942")).failureStatus
        = some ("Search failed: " ++ "ORA-00942") :=
  ⟨by decide,
   search_backend_error_yields_empty
     ⟨some "q", "mmr", some 3, 20, 1/2, 7/20⟩
     (fun _ => Except.error "ORA-00942") "q" "ORA-00942" rfl
     (by decide) (fun _ => rfl)⟩

/-- C10: any unrecognized search_type falls through to the final else —
the retrieval stage does not raise; it issues exactly one plain
similarity call with k results and no fetch_k, and returns whatever that
call returns. -/
theorem unknown_search_type_plain_similarity
    (cfg : SearchConfig) (backend : SearchCall → Except String (List LfData))
    (q : String) (hq : cfg.searchQuery = some q) (hne : pyStrip q ≠ "")
    (h1 : cfg.searchType ≠ "similarity") (h2 : cfg.searchType ≠ "mmr")
    (h3 : cfg.searchType ≠ "similarity_score_threshold") :
    (searchDocuments cfg backend).calls
      = [SearchCall.similarity (pyStrip q)
          (max 1 (pyOrFive cfg.numberOfResults)) none]
    ∧ ∀ docs,
        backend (SearchCall.similarity (pyStrip q)
          (max 1 (pyOrFive cfg.numberOfResults)) none) = Except.ok docs →
        (searchDocuments cfg backend).results = docs := by
  unfold searchDocuments
  rw [hq]
  simp only [hne, if_neg hne, h1, h2, h3, if_neg h1, if_neg h2, if_neg h3]
  constructor
  · rcases hbc : backend (SearchCall.similarity (pyStrip q)
        (max 1 (pyOrFive cfg.numberOfResults)) none) with e | docs <;>
      simp [hbc]
  · intro docs hd
    simp [hd]

/-- Witness for C10: a misspelled search type issues a plain similarity
call and hands back the backend's documents. -/
theorem unknown_search_type_plain_similarity_witness :
    pyStrip "q" ≠ ""
    ∧ ("similarityy" : String) ≠ "similarity"
    ∧ ("similarityy" : String) ≠ "mmr"
    ∧ ("similarityy" : String) ≠ "similarity_score_threshold"
    ∧ (searchDocuments ⟨some "q", "similarityy", some 3, 20, 1/2, 7/20⟩
        (fun _ => Except.ok [⟨none, "hit", []⟩])).calls
      = [SearchCall.similarity (pyStrip "q") (max 1 (pyOrFive (some 3))) none]
    ∧ (searchDocuments ⟨some "q", "similarityy", some 3, 20, 1/2, 7/20⟩
        (fun _ => Except.ok [⟨none, "hit", []⟩])).results
      = [⟨none, "hit", []⟩] :=
  ⟨by decide, by decide, by decide, by decide,
   (unknown_search_type_plain_similarity
      ⟨some "q", "similarityy", some 3, 20, 1/2, 7/20⟩
      (fun _ => Except.ok [⟨none, "hit", []⟩]) "q" rfl (by decide)
      (by decide) (by decide) (by decide)).1,
   (unknown_search_type_plain_similarity
      ⟨some "q", "similarityy", some 3, 20, 1/2, 7/20⟩
      (fun _ => Except.ok [⟨none, "hit", []⟩]) "q" rfl (by decide)
      (by decide) (by decide) (by decide)).2 [⟨none, "hit", []⟩] rfl⟩
